import Mathlib

/-!
Verification of the RAGmonsters MCP server's domain query and tool layer.

The development shallowly embeds the JavaScript tool functions of
`src/mcp-server/tools/monsters.js`, the zod parameter schemas of
`src/mcp-server/tools/index.js`, the resource cache of
`src/mcp-server/resources/monsters.js`, and the pooled query helpers of
`src/mcp-server/utils/db.js`.

Database tables are lists of typed rows (the shapes come from
`doc/ragmonsters_schema.sql`); SQL statements are embedded as the list
operations they denote (join, filter, sort, limit) together with a
structural view of their ORDER BY clauses; JavaScript exceptions become
`Except JsError`; every tool returns its result paired with the number of
database queries it executed, so that "no query runs" claims are statable.
-/

namespace RAGmonsters

/-- A JavaScript `Error` value: `new Error(message)` always carries the
built-in class name `"Error"`; only the message text varies. -/
structure JsError where
  name : String
  message : String
deriving DecidableEq, Repr

/-- `new Error(message)` as written throughout `monsters.js`. -/
def jsError (message : String) : JsError := ⟨"Error", message⟩

/-- The JSON values the tools serialize into `content[0].text`. -/
inductive Json where
  | str (s : String)
  | num (n : Int)
  | jbool (b : Bool)
  | jnull
  | arr (elems : List Json)
  | obj (fields : List (String × Json))

/-- Field lookup on a JSON object (`none` on non-objects or absent keys). -/
def Json.objLookup : Json → String → Option Json
  | .obj fields, k => fields.lookup k
  | _, _ => none

/-- Character-wise lowercasing, the semantics shared by JavaScript
`toLowerCase()` and SQL `LOWER` on the dataset's names. -/
def jsToLower (s : String) : String := ⟨s.data.map Char.toLower⟩

/-- JavaScript truthiness of an optional string argument: `undefined` and
`""` are falsy, every other string is truthy. -/
def jsTruthyStr : Option String → Bool
  | none => false
  | some s => !(s == "")

/-- JavaScript truthiness of an optional number argument: `undefined` and
`0` are falsy. -/
def jsTruthyInt : Option Int → Bool
  | none => false
  | some n => !(n == 0)

/-- Insertion step of the sort used to denote SQL `ORDER BY`. -/
def insertSorted {α : Type} (le : α → α → Bool) (a : α) : List α → List α
  | [] => [a]
  | b :: bs => if le a b then a :: b :: bs else b :: insertSorted le a bs

/-- Insertion sort denoting SQL `ORDER BY` with comparator `le`. -/
def sortBy {α : Type} (le : α → α → Bool) : List α → List α
  | [] => []
  | a :: as => insertSorted le a (sortBy le as)

/-- A row of `ragmonsters.monsters` (`doc/ragmonsters_schema.sql`); the pg
driver delivers `DECIMAL` columns such as `height` as strings. -/
structure MonsterRow where
  monster_id : Int
  name : String
  subcategory_id : Int
  monster_type : String
  habitat : String
  biome : String
  rarity : String
  discovery : String
  height : String
  weight : String
  appearance : String
  primary_power : String
  secondary_power : String
  special_ability : String
  weakness : String
  behavior_ecology : String
  notable_specimens : String
deriving DecidableEq, Repr

/-- A row of `ragmonsters.categories`. -/
structure CategoryRow where
  category_id : Int
  category_name : String
deriving DecidableEq, Repr

/-- A row of `ragmonsters.subcategories`. -/
structure SubcategoryRow where
  subcategory_id : Int
  subcategory_name : String
  category_id : Int
deriving DecidableEq, Repr

/-- A row of `ragmonsters.questworlds_stats`. -/
structure StatsRow where
  stats_id : Int
  monster_id : Int
deriving DecidableEq, Repr

/-- A row of `ragmonsters.keywords`. -/
structure KeywordRow where
  keyword_id : Int
  stats_id : Int
  keyword_name : String
  rating : Int
deriving DecidableEq, Repr

/-- A row of `ragmonsters.abilities` (`mastery_value` is `VARCHAR(10)`). -/
structure AbilityTableRow where
  ability_id : Int
  stats_id : Int
  keyword_id : Int
  ability_name : String
  mastery_value : String
deriving DecidableEq, Repr

/-- A row of `ragmonsters.flaws`. -/
structure FlawRow where
  flaw_id : Int
  stats_id : Int
  flaw_name : String
  rating : Int
deriving DecidableEq, Repr

/-- A row of `ragmonsters.augments`. -/
structure AugmentRow where
  augment_id : Int
  monster_id : Int
  target_name : String
  modifier : Int
deriving DecidableEq, Repr

/-- A row of `ragmonsters.hindrances`. -/
structure HindranceRow where
  hindrance_id : Int
  monster_id : Int
  target_name : String
  modifier : Int
deriving DecidableEq, Repr

/-- The relational store the queries run against. -/
structure Database where
  monsters : List MonsterRow
  categories : List CategoryRow
  subcategories : List SubcategoryRow
  questworlds_stats : List StatsRow
  keywords : List KeywordRow
  abilities : List AbilityTableRow
  flaws : List FlawRow
  augments : List AugmentRow
  hindrances : List HindranceRow
deriving Repr

/-- Execution environment of a tool call: the store plus an optional
data-store failure, modelling `executeQuery` rejecting (connection or
query error) instead of returning rows. -/
structure Env where
  db : Database
  queryFailure : Option JsError

/-- One `executeQuery` call: counts as one executed query; surfaces the
environment's failure if there is one, otherwise the given rows. -/
def runQuery {α : Type} (env : Env) (rows : List α) :
    Except JsError (List α) × Nat :=
  match env.queryFailure with
  | some e => (.error e, 1)
  | none => (.ok rows, 1)

/-- Sequencing of awaited steps inside a tool body: errors short-circuit
(the JS exception propagates), query counts add up. -/
def bindQ {α β : Type} :
    Except JsError α × Nat → (α → Except JsError β × Nat) →
    Except JsError β × Nat
  | (.error e, n), _ => (.error e, n)
  | (.ok a, n), f => ((f a).1, n + (f a).2)

/-- A `catch` block that rethrows `new Error(prefixMsg + error.message)`,
as the tail of `getMonsterById`, `getMonsterByHabitat` and
`getMonsterByName` does. -/
def jsCatchWrap {α : Type} (prefixMsg : String) :
    Except JsError α × Nat → Except JsError α × Nat
  | (.error e, n) => (.error (jsError (prefixMsg ++ e.message)), n)
  | (.ok a, n) => (.ok a, n)

/-- The row shape selected by the list queries (`getMonsters`,
`getMonsterByHabitat`, `getMonsterByName`): monsters joined to
subcategories and categories with explicit columns. -/
structure JoinedRow where
  monster_id : Int
  name : String
  category_name : String
  subcategory_name : String
  habitat : String
  biome : String
  rarity : String
  primary_power : String
  secondary_power : String
  special_ability : String
deriving DecidableEq, Repr

/-- Denotation of `FROM monsters m JOIN subcategories s ON
m.subcategory_id = s.subcategory_id JOIN categories c ON s.category_id =
c.category_id`. -/
def joinMSC (db : Database) : List JoinedRow :=
  db.monsters.flatMap fun m =>
    db.subcategories.flatMap fun s =>
      if m.subcategory_id == s.subcategory_id then
        db.categories.filterMap fun c =>
          if s.category_id == c.category_id then
            some ⟨m.monster_id, m.name, c.category_name, s.subcategory_name,
              m.habitat, m.biome, m.rarity, m.primary_power,
              m.secondary_power, m.special_ability⟩
          else none
      else []

/-- The `filters` argument of `getMonsters`. -/
structure Filters where
  category : Option String := none
  habitat : Option String := none
  biome : Option String := none
  rarity : Option String := none
deriving DecidableEq, Repr

/-- The `sort` argument of `getMonsters`. -/
structure SortParams where
  field : Option String := none
  direction : Option String := none
deriving DecidableEq, Repr

/-- The `WHERE` clauses appended by `getMonsters` (each filter is only
added when the supplied value is truthy, and compares by equality). -/
def applyFilters (f : Filters) (rows : List JoinedRow) : List JoinedRow :=
  rows.filter fun r =>
    (!(jsTruthyStr f.category) || (r.category_name == f.category.getD "")) &&
    (!(jsTruthyStr f.habitat) || (r.habitat == f.habitat.getD "")) &&
    (!(jsTruthyStr f.biome) || (r.biome == f.biome.getD "")) &&
    (!(jsTruthyStr f.rarity) || (r.rarity == f.rarity.getD ""))

/-- Direction of an ORDER BY key. -/
inductive SortDir where
  | asc
  | desc
deriving DecidableEq, Repr

/-- One key of a generated ORDER BY clause. -/
structure OrderKey where
  column : String
  dir : SortDir
deriving DecidableEq, Repr

/-- The sort-field allow-list of `getMonsters`. -/
def validSortFields : List String := ["name", "category", "habitat", "rarity"]

/-- Structural view of the ORDER BY clause built by `getMonsters`
(`monsters.js` lines 217-231): requested field restricted to the
allow-list (silently falling back to `name`), direction `desc` only on a
case-insensitive match, and `m.monster_id ASC` appended as tie-breaker;
without a truthy `sort.field` the default is `m.name ASC, m.monster_id
ASC`. -/
def getMonstersOrderBy (sort : SortParams) : List OrderKey :=
  if jsTruthyStr sort.field then
    let sortField :=
      if validSortFields.contains (sort.field.getD "") then sort.field.getD ""
      else "name"
    let sortDirection :=
      if jsToLower (sort.direction.getD "") == "desc" then SortDir.desc
      else SortDir.asc
    [⟨sortField, sortDirection⟩, ⟨"monster_id", SortDir.asc⟩]
  else
    [⟨"name", SortDir.asc⟩, ⟨"monster_id", SortDir.asc⟩]

/-- The fixed ORDER BY clause of the `getMonsterByHabitat` query
(`monsters.js` line 545: `ORDER BY m.name ASC`). -/
def getMonsterByHabitatOrderBy : List OrderKey := [⟨"name", SortDir.asc⟩]

/-- The fixed ORDER BY clause of the `getMonsterByName` query
(`monsters.js` line 625: `ORDER BY m.name ASC`). -/
def getMonsterByNameOrderBy : List OrderKey := [⟨"name", SortDir.asc⟩]

/-- Comparison of two joined rows on one ORDER BY column. The generated
SQL qualifies every sort field as `m.<field>`, so `category` (not a
column of the monsters table) would fail at execution time; it is never
exercised by the embedded runs and compares as equal here. -/
def colCmp (c : String) (a b : JoinedRow) : Ordering :=
  if c == "name" then compare a.name b.name
  else if c == "habitat" then compare a.habitat b.habitat
  else if c == "rarity" then compare a.rarity b.rarity
  else if c == "monster_id" then compare a.monster_id b.monster_id
  else Ordering.eq

/-- Lexicographic comparison along an ORDER BY key list. -/
def keysCmp : List OrderKey → JoinedRow → JoinedRow → Ordering
  | [], _, _ => Ordering.eq
  | k :: ks, a, b =>
    let c := colCmp k.column a b
    let c := match k.dir with
      | SortDir.asc => c
      | SortDir.desc => c.swap
    match c with
    | Ordering.eq => keysCmp ks a b
    | o => o

/-- Boolean `≤` induced by an ORDER BY key list, fed to the sort. -/
def keysLe (ks : List OrderKey) (a b : JoinedRow) : Bool :=
  keysCmp ks a b != Ordering.gt

/-- The clamp `Math.min(Math.max(1, limit), 50)` of `getMonsters`
(`monsters.js` line 169). -/
def safeLimit (limit : Int) : Int := min (max 1 limit) 50

/-- The argument object of `getMonsters`; absent fields take the JS
destructuring defaults `filters = {}`, `sort = {}`, `limit = 10`,
`offset = 0`. -/
structure GetMonstersParams where
  filters : Option Filters := none
  sort : Option SortParams := none
  limit : Option Int := none
  offset : Option Int := none
deriving Repr

/-- Denotation of the rows produced by the `getMonsters` query: join,
filters, ORDER BY, then `LIMIT safeLimit OFFSET offset`. -/
def getMonstersRows (db : Database) (p : GetMonstersParams) : List JoinedRow :=
  let filters := p.filters.getD {}
  let sort := p.sort.getD {}
  let limit := p.limit.getD 10
  let offset := p.offset.getD 0
  let rows := applyFilters filters (joinMSC db)
  let sorted := sortBy (keysLe (getMonstersOrderBy sort)) rows
  (sorted.drop offset.toNat).take (safeLimit limit).toNat

/-- The summary-list JSON shape shared by the list tools (`id`, `name`,
`category`, `subcategory`, `habitat`, `biome`, `rarity`, nested
`powers`). `getMonsterByHabitat` and `getMonsterByName` do not select
`biome`; their mapper reads an absent property, so the field serializes
as omitted there — modelled by the `withBiome` switch. -/
def summaryJson (withBiome : Bool) (r : JoinedRow) : Json :=
  Json.obj
    ([("id", Json.num r.monster_id),
      ("name", Json.str r.name),
      ("category", Json.str r.category_name),
      ("subcategory", Json.str r.subcategory_name),
      ("habitat", Json.str r.habitat)] ++
    (if withBiome then [("biome", Json.str r.biome)] else []) ++
    [("rarity", Json.str r.rarity),
      ("powers", Json.obj
        [("primary", Json.str r.primary_power),
          ("secondary", Json.str r.secondary_power),
          ("special", Json.str r.special_ability)])])

/-- The human-readable summary line of `getMonsters`. -/
def getMonstersSummary (filters : Filters) (found : Nat) : String :=
  "Found " ++ toString found ++ " monsters" ++
    (if jsTruthyStr filters.category then
      " in category \x27" ++ filters.category.getD "" ++ "\x27" else "") ++
    (if jsTruthyStr filters.habitat then
      " in habitat \x27" ++ filters.habitat.getD "" ++ "\x27" else "") ++ "."

/-- The `getMonsters` tool (`monsters.js` lines 159-276): one query, then
the JSON payload `{data, summary, source, policy, next}`; errors are
rethrown unwrapped. -/
def getMonsters (env : Env) (p : GetMonstersParams) :
    Except JsError Json × Nat :=
  bindQ (runQuery env (getMonstersRows env.db p)) fun monsters =>
    (.ok (Json.obj
      [("data", Json.arr (monsters.map (summaryJson true))),
        ("summary", Json.str
          (getMonstersSummary (p.filters.getD {}) monsters.length)),
        ("source", Json.str "RAGmonsters DB"),
        ("policy", Json.str "Data retrieved from official RAGmonsters catalog."),
        ("next", Json.arr
          (match monsters with
          | [] => []
          | m :: _ => [Json.str ("getMonsterById(\x7b monsterId: " ++
              toString m.monster_id ++ " \x7d)")]))]), 0)

/-- The closed category enumeration of the `getMonsters` zod schema
(`tools/index.js` lines 45-48). -/
def categoryEnum : List String :=
  ["Anomaly/Phenomenon", "Aquatic", "Celestial/Cosmic",
    "Construct/Artificial", "Elemental", "Nature/Organic", "Spirit/Ethereal"]

/-- The closed rarity enumeration of the `getMonsters` zod schema
(`tools/index.js` lines 51-53). -/
def rarityEnum : List String :=
  ["Common", "Uncommon", "Rare", "Very Rare", "Extremely Rare"]

/-- The `z.object` parameter schema registered for `getMonsters`
(`tools/index.js` lines 43-62): `filters.category` and `filters.rarity`
must lie in their closed enumerations, `sort.direction` in
`{asc, desc}`, and `limit` must be an integer of at least 1; all fields
optional. -/
def validateGetMonstersParams (p : GetMonstersParams) : Bool :=
  (match p.filters with
    | none => true
    | some f =>
      (match f.category with
        | none => true
        | some c => categoryEnum.contains c) &&
      (match f.rarity with
        | none => true
        | some r => rarityEnum.contains r)) &&
  (match p.sort with
    | none => true
    | some s =>
      (match s.direction with
        | none => true
        | some d => d == "asc" || d == "desc")) &&
  (match p.limit with
    | none => true
    | some l => 1 ≤ l)

/-- The schema-violation error raised by zod when the arguments fail the
registered parameter schema; zod errors carry the class name
`"ZodError"`. -/
def zodValidationError : JsError :=
  ⟨"ZodError", "Invalid arguments for tool getMonsters"⟩

/-- Modelled from the spec: the FastMCP dispatcher that carries a tool
invocation to its `execute` function is part of the `fastmcp`
dependency, not of this repository; per the spec, arguments
"MUST validate against closed enumerations before reaching the builder"
and validation failure rejects the request "with zero query execution",
so the dispatcher checks the registered `parameters` schema and only
then calls `execute`. -/
def callGetMonstersTool (env : Env) (p : GetMonstersParams) :
    Except JsError Json × Nat :=
  if validateGetMonstersParams p then getMonsters env p
  else (.error zodValidationError, 0)

/-- SQL `SELECT DISTINCT x ... ORDER BY x ASC` over a string column. -/
def distinctSorted (l : List String) : List String :=
  sortByStr l.dedup
where
  /-- ascending sort on strings -/
  sortByStr (xs : List String) : List String :=
    sortBy (fun a b => compare a b != Ordering.gt) xs

/-- The `getCategories` tool (`monsters.js` lines 23-43): one fresh query
per invocation, returning `[{id, name}]` ordered by name. -/
def toolGetCategories (env : Env) : Except JsError Json × Nat :=
  bindQ (runQuery env
      (sortBy (fun a b => compare a.category_name b.category_name != Ordering.gt)
        env.db.categories)) fun result =>
    (.ok (Json.arr (result.map fun r =>
      Json.obj [("id", Json.num r.category_id),
        ("name", Json.str r.category_name)])), 0)

/-- The `getRarities` tool (`monsters.js` lines 49-66): one fresh
`SELECT DISTINCT rarity` query per invocation. -/
def toolGetRarities (env : Env) : Except JsError Json × Nat :=
  bindQ (runQuery env (distinctSorted (env.db.monsters.map (·.rarity))))
    fun result => (.ok (Json.arr (result.map Json.str)), 0)

/-- The `getBiomes` tool (`monsters.js` lines 124-141): one fresh
`SELECT DISTINCT biome` query per invocation. -/
def toolGetBiomes (env : Env) : Except JsError Json × Nat :=
  bindQ (runQuery env (distinctSorted (env.db.monsters.map (·.biome))))
    fun result => (.ok (Json.arr (result.map Json.str)), 0)

/-- The `getHabitats` tool (`monsters.js` lines 465-500): one fresh
`SELECT DISTINCT habitat` query per invocation; its catch wraps errors
with `Failed to retrieve habitats: `. -/
def toolGetHabitats (env : Env) : Except JsError Json × Nat :=
  jsCatchWrap "Failed to retrieve habitats: "
    (bindQ (runQuery env (distinctSorted (env.db.monsters.map (·.habitat))))
      fun result => (.ok (Json.arr (result.map Json.str)), 0))

/-- The subcategory join row selected by `getSubcategories`. -/
structure SubcatJoinRow where
  subcategory_id : Int
  subcategory_name : String
  category_id : Int
  category_name : String
deriving DecidableEq, Repr

/-- The `getSubcategories` tool (`monsters.js` lines 74-118): one fresh
join query per invocation, optionally filtered by category name, ordered
by category then subcategory name. -/
def toolGetSubcategories (env : Env) (categoryName : Option String) :
    Except JsError Json × Nat :=
  let rows := env.db.subcategories.flatMap fun s =>
    env.db.categories.filterMap fun c =>
      if s.category_id == c.category_id then
        some (⟨s.subcategory_id, s.subcategory_name, c.category_id,
          c.category_name⟩ : SubcatJoinRow)
      else none
  let rows :=
    if jsTruthyStr categoryName then
      rows.filter (fun r => r.category_name == categoryName.getD "")
    else rows
  let rows := sortBy
    (fun a b =>
      ((compare a.category_name b.category_name).then
        (compare a.subcategory_name b.subcategory_name)) != Ordering.gt) rows
  bindQ (runQuery env rows) fun result =>
    (.ok (Json.arr (result.map fun r =>
      Json.obj [("id", Json.num r.subcategory_id),
        ("name", Json.str r.subcategory_name),
        ("category", Json.obj [("id", Json.num r.category_id),
          ("name", Json.str r.category_name)])])), 0)

/-- The module-level cache of `resources/monsters.js`: `null` before
`initializeResources` ran, a snapshot afterwards. -/
structure ResourceCache where
  cachedCategories : Option (List String)
  cachedSubcategories : Option (List (String × String))
  cachedHabitats : Option (List String)
deriving Repr

/-- `initializeResources` (`resources/monsters.js` lines 20-53): runs
three queries once at startup and stores their results in the
module-level cache. -/
def initializeResources (env : Env) :
    Except JsError ResourceCache × Nat :=
  bindQ (runQuery env
      (sortBy (fun a b => compare a.category_name b.category_name != Ordering.gt)
        env.db.categories)) fun categories =>
  bindQ (runQuery env
      (sortBy
        (fun a b => ((compare a.2 b.2).then (compare a.1 b.1)) != Ordering.gt)
        (env.db.subcategories.flatMap fun s =>
          env.db.categories.filterMap fun c =>
            if s.category_id == c.category_id then
              some (s.subcategory_name, c.category_name)
            else none)))
    fun subcategories =>
  bindQ (runQuery env (distinctSorted (env.db.monsters.map (·.habitat))))
    fun habitats =>
    (.ok ⟨some (categories.map (·.category_name)), some subcategories,
      some habitats⟩, 0)

/-- The `ragmonsters://categories` resource loader (`resources/monsters.js`
lines 108-114): serves the cached list, runs no query, and signals
"not loaded" before initialization. -/
def loadCategories (cache : ResourceCache) : String × Nat :=
  (match cache.cachedCategories with
    | some cs => "Monster Categories:\n" ++
        String.intercalate "\n" (cs.map (fun c => "- " ++ c))
    | none => "Categories not loaded. Server may not be fully initialized.", 0)

/-- The `ragmonsters://habitats` resource loader (`resources/monsters.js`
lines 147-153): serves the cached list, runs no query. -/
def loadHabitats (cache : ResourceCache) : String × Nat :=
  (match cache.cachedHabitats with
    | some hs => "Monster Habitats:\n" ++
        String.intercalate "\n" (hs.map (fun h => "- " ++ h))
    | none => "Habitats not loaded. Server may not be fully initialized.", 0)

/-- The row selected by the `getMonsterById` main query (explicit
columns, monsters joined to subcategories and categories). -/
structure DetailRow where
  monster_id : Int
  name : String
  category_name : String
  subcategory_name : String
  habitat : String
  biome : String
  rarity : String
  discovery : String
  height : String
  weight : String
  appearance : String
  primary_power : String
  secondary_power : String
  special_ability : String
  weakness : String
  behavior_ecology : String
  notable_specimens : String
deriving DecidableEq, Repr

/-- Denotation of the `getMonsterById` main query
(`WHERE m.monster_id = $1`). -/
def joinById (db : Database) (mid : Int) : List DetailRow :=
  db.monsters.flatMap fun m =>
    if m.monster_id == mid then
      db.subcategories.flatMap fun s =>
        if m.subcategory_id == s.subcategory_id then
          db.categories.filterMap fun c =>
            if s.category_id == c.category_id then
              some ⟨m.monster_id, m.name, c.category_name,
                s.subcategory_name, m.habitat, m.biome, m.rarity,
                m.discovery, m.height, m.weight, m.appearance,
                m.primary_power, m.secondary_power, m.special_ability,
                m.weakness, m.behavior_ecology, m.notable_specimens⟩
            else none
        else []
    else []

/-- The row selected by the abilities query of `getMonsterById`
(keyword name and rating joined to ability name and mastery). -/
structure AbilityRes where
  keyword_name : String
  rating : Int
  ability_name : String
  mastery_value : String
deriving DecidableEq, Repr

/-- Denotation of the abilities query: stats, keywords and abilities
joined, restricted to the monster, `ORDER BY k.keyword_name,
a.ability_name`. -/
def abilitiesFor (db : Database) (mid : Int) : List AbilityRes :=
  sortBy
    (fun a b => ((compare a.keyword_name b.keyword_name).then
      (compare a.ability_name b.ability_name)) != Ordering.gt)
    (db.questworlds_stats.flatMap fun qs =>
      if qs.monster_id == mid then
        db.keywords.flatMap fun k =>
          if qs.stats_id == k.stats_id then
            db.abilities.filterMap fun a =>
              if k.keyword_id == a.keyword_id then
                some ⟨k.keyword_name, k.rating, a.ability_name,
                  a.mastery_value⟩
              else none
          else []
      else [])

/-- The row selected by the flaws query of `getMonsterById`. -/
structure FlawRes where
  flaw_name : String
  rating : Int
deriving DecidableEq, Repr

/-- Denotation of the flaws query (`ORDER BY f.rating DESC`). -/
def flawsFor (db : Database) (mid : Int) : List FlawRes :=
  sortBy (fun a b => decide (b.rating ≤ a.rating))
    (db.questworlds_stats.flatMap fun qs =>
      if qs.monster_id == mid then
        db.flaws.filterMap fun f =>
          if qs.stats_id == f.stats_id then
            some ⟨f.flaw_name, f.rating⟩
          else none
      else [])

/-- The row selected by the augments and hindrances queries. -/
structure TargetRes where
  target_name : String
  modifier : Int
deriving DecidableEq, Repr

/-- Denotation of the strengths query (`FROM augments WHERE
monster_id = $1`, no ORDER BY: table order). -/
def strengthsFor (db : Database) (mid : Int) : List TargetRes :=
  db.augments.filterMap fun a =>
    if a.monster_id == mid then some ⟨a.target_name, a.modifier⟩ else none

/-- Denotation of the weaknesses query (`FROM hindrances WHERE
monster_id = $1`). -/
def weaknessesFor (db : Database) (mid : Int) : List TargetRes :=
  db.hindrances.filterMap fun h =>
    if h.monster_id == mid then some ⟨h.target_name, h.modifier⟩ else none

/-- One entry of a keyword node's `abilities` list. -/
structure Ability where
  name : String
  mastery : String
deriving DecidableEq, Repr

/-- One keyword node of the assembled detail record. -/
structure KeywordNode where
  name : String
  rating : Int
  abilities : List Ability
deriving DecidableEq, Repr

/-- One step of the `abilities.forEach` fold of `getMonsterById`
(`monsters.js` lines 392-406): group by `keyword_name` into the
insertion-ordered map `keywordAbilities` (its keys are non-index
strings, so `Object.values` returns insertion order); a first occurrence
appends a node carrying that row's rating, every occurrence appends the
ability to its node. -/
def insertRow (acc : List KeywordNode) (item : AbilityRes) :
    List KeywordNode :=
  if acc.any (fun n => n.name == item.keyword_name) then
    acc.map fun n =>
      if n.name == item.keyword_name then
        { n with abilities :=
            n.abilities ++ [⟨item.ability_name, item.mastery_value⟩] }
      else n
  else
    acc ++ [⟨item.keyword_name, item.rating,
      [⟨item.ability_name, item.mastery_value⟩]⟩]

/-- The keyword/ability grouping of the row assembler. -/
def groupAbilities (rows : List AbilityRes) : List KeywordNode :=
  rows.foldl insertRow []

/-- JSON for one keyword node. -/
def keywordNodeJson (n : KeywordNode) : Json :=
  Json.obj [("name", Json.str n.name), ("rating", Json.num n.rating),
    ("abilities", Json.arr (n.abilities.map fun a =>
      Json.obj [("name", Json.str a.name), ("mastery", Json.str a.mastery)]))]

/-- The row assembler of `getMonsterById` (`monsters.js` lines 410-446):
folds the five row sets into the nested `data` record. -/
def monsterDetailJson (m : DetailRow) (abilities : List AbilityRes)
    (flaws : List FlawRes) (strengths weaknesses : List TargetRes) : Json :=
  Json.obj
    [("id", Json.num m.monster_id),
      ("name", Json.str m.name),
      ("category", Json.str m.category_name),
      ("subcategory", Json.str m.subcategory_name),
      ("habitat", Json.str m.habitat),
      ("biome", Json.str m.biome),
      ("rarity", Json.str m.rarity),
      ("discovery", Json.str m.discovery),
      ("physicalAttributes", Json.obj
        [("height", Json.str m.height), ("weight", Json.str m.weight),
          ("appearance", Json.str m.appearance)]),
      ("powers", Json.obj
        [("primary", Json.str m.primary_power),
          ("secondary", Json.str m.secondary_power),
          ("special", Json.str m.special_ability)]),
      ("keywords", Json.arr ((groupAbilities abilities).map keywordNodeJson)),
      ("flaws", Json.arr (flaws.map fun f =>
        Json.obj [("name", Json.str f.flaw_name),
          ("rating", Json.num f.rating)])),
      ("strengths", Json.arr (strengths.map fun s =>
        Json.obj [("target", Json.str s.target_name),
          ("modifier", Json.num s.modifier)])),
      ("weaknesses", Json.arr (weaknesses.map fun w =>
        Json.obj [("target", Json.str w.target_name),
          ("modifier", Json.num w.modifier)]))]

/-- The `getMonsterById` tool (`monsters.js` lines 285-458): required-id
guard, main query, not-found check, four auxiliary queries, assembly;
its catch rethrows every error wrapped as
`Failed to retrieve monster details: <message>`. -/
def getMonsterById (env : Env) (monsterId : Option Int) :
    Except JsError Json × Nat :=
  jsCatchWrap "Failed to retrieve monster details: " <|
    if !(jsTruthyInt monsterId) then
      (.error (jsError "Monster ID is required"), 0)
    else
      let mid := monsterId.getD 0
      bindQ (runQuery env (joinById env.db mid)) fun monsters =>
        match monsters with
        | [] => (.error (jsError
            ("Monster with ID " ++ toString mid ++ " not found")), 0)
        | monster :: _ =>
          bindQ (runQuery env (abilitiesFor env.db mid)) fun abilities =>
          bindQ (runQuery env (flawsFor env.db mid)) fun flaws =>
          bindQ (runQuery env (strengthsFor env.db mid)) fun strengths =>
          bindQ (runQuery env (weaknessesFor env.db mid)) fun weaknesses =>
            (.ok (Json.obj
              [("data", monsterDetailJson monster abilities flaws
                  strengths weaknesses),
                ("summary", Json.str (monster.name ++ " is a " ++
                  monster.rarity ++ " " ++ monster.subcategory_name ++
                  " (" ++ monster.category_name ++ ") monster found in " ++
                  monster.habitat ++ ".")),
                ("source", Json.str "RAGmonsters DB"),
                ("policy", Json.str
                  "Detailed specimen data from field research logs.")]), 0)

/-- Denotation of the `getMonsterByHabitat` query (`monsters.js` lines
525-547): exact habitat equality, `ORDER BY m.name ASC`, `LIMIT $2`
binding the caller's limit as-is — no clamp is applied to it. -/
def getMonsterByHabitatRows (db : Database) (habitat : String)
    (lim : Int) : List JoinedRow :=
  ((sortBy (keysLe getMonsterByHabitatOrderBy)
    ((joinMSC db).filter (fun r => r.habitat == habitat))).take lim.toNat)

/-- The `getMonsterByHabitat` tool (`monsters.js` lines 510-581):
required-habitat guard, one query with the unclamped limit, response
`{monsters, habitat, count}`; its catch wraps errors as
`Failed to retrieve monsters by habitat: <message>`. -/
def getMonsterByHabitat (env : Env) (habitat : Option String)
    (limit : Option Int) : Except JsError Json × Nat :=
  jsCatchWrap "Failed to retrieve monsters by habitat: " <|
    if !(jsTruthyStr habitat) then
      (.error (jsError "Habitat parameter is required"), 0)
    else
      let h := habitat.getD ""
      let lim := limit.getD 10
      bindQ (runQuery env (getMonsterByHabitatRows env.db h lim))
        fun monsters =>
        (.ok (Json.obj
          [("monsters", Json.arr (monsters.map (summaryJson false))),
            ("habitat", Json.str h),
            ("count", Json.num monsters.length)]), 0)

/-- Denotation of `LOWER(m.name) LIKE LOWER($1)` with the pattern
`%name%`: case-insensitive substring containment. -/
def likeContainsCI (pat s : String) : Bool :=
  decide (List.IsInfix (jsToLower pat).toList (jsToLower s).toList)

/-- Denotation of the `getMonsterByName` query (`monsters.js` lines
605-627): case-insensitive partial name match, `ORDER BY m.name ASC`,
`LIMIT 5`. -/
def getMonsterByNameRows (db : Database) (name : String) :
    List JoinedRow :=
  ((sortBy (keysLe getMonsterByNameOrderBy)
    ((joinMSC db).filter (fun r => likeContainsCI name r.name))).take 5)

/-- The `getMonsterByName` tool (`monsters.js` lines 590-674):
required-name guard, one query; on zero matches it returns
`{found: false, message}`, on matches `{found: true, count, monsters}`;
its catch wraps errors as `Failed to retrieve monster by name:
<message>`. -/
def getMonsterByName (env : Env) (name : Option String) :
    Except JsError Json × Nat :=
  jsCatchWrap "Failed to retrieve monster by name: " <|
    if !(jsTruthyStr name) then
      (.error (jsError "Monster name is required"), 0)
    else
      let n := name.getD ""
      bindQ (runQuery env (getMonsterByNameRows env.db n)) fun monsters =>
        if monsters.length == 0 then
          (.ok (Json.obj
            [("found", Json.jbool false),
              ("message", Json.str
                ("No monsters found with name: " ++ n))]), 0)
        else
          (.ok (Json.obj
            [("found", Json.jbool true),
              ("count", Json.num monsters.length),
              ("monsters", Json.arr (monsters.map (summaryJson false)))]), 0)

/-- The row selected by the `compareMonsters` query. -/
structure CompareRow where
  monster_id : Int
  name : String
  category_name : String
  subcategory_name : String
  habitat : String
  rarity : String
  height : String
  weight : String
  primary_power : String
  secondary_power : String
  special_ability : String
deriving DecidableEq, Repr

/-- Denotation of the `compareMonsters` query
(`WHERE LOWER(m.name) IN (LOWER($1), LOWER($2))`, no ORDER BY). -/
def compareRowsFor (db : Database) (a b : String) : List CompareRow :=
  db.monsters.flatMap fun m =>
    if jsToLower m.name == jsToLower a || jsToLower m.name == jsToLower b then
      db.subcategories.flatMap fun s =>
        if m.subcategory_id == s.subcategory_id then
          db.categories.filterMap fun c =>
            if s.category_id == c.category_id then
              some ⟨m.monster_id, m.name, c.category_name,
                s.subcategory_name, m.habitat, m.rarity, m.height,
                m.weight, m.primary_power, m.secondary_power,
                m.special_ability⟩
            else none
        else []
    else []

/-- One per-field comparison entry of the `compareMonsters` payload. -/
def compareFieldJson (aName bName aVal bVal : String) : Json :=
  Json.obj [(aName, Json.str aVal), (bName, Json.str bVal),
    ("match", Json.jbool (aVal == bVal))]

/-- The `compareMonsters` tool (`monsters.js` lines 683-758): both names
required, one query, each name resolved case-insensitively against the
returned rows; an unresolved name raises `Monster '<name>' not found.`
naming that monster; its catch rethrows errors unwrapped. -/
def compareMonsters (env : Env) (monsterNameA monsterNameB : Option String) :
    Except JsError Json × Nat :=
  if !(jsTruthyStr monsterNameA) || !(jsTruthyStr monsterNameB) then
    (.error (jsError "Both monsterNameA and monsterNameB are required."), 0)
  else
    let a := monsterNameA.getD ""
    let b := monsterNameB.getD ""
    bindQ (runQuery env (compareRowsFor env.db a b)) fun results =>
      match results.find? (fun m => jsToLower m.name == jsToLower a) with
      | none => (.error (jsError
          ("Monster \x27" ++ a ++ "\x27 not found.")), 0)
      | some mA =>
        match results.find? (fun m => jsToLower m.name == jsToLower b) with
        | none => (.error (jsError
            ("Monster \x27" ++ b ++ "\x27 not found.")), 0)
        | some mB =>
          (.ok (Json.obj
            [("monsters", Json.arr [Json.str mA.name, Json.str mB.name]),
              ("comparison", Json.obj
                [("category", compareFieldJson mA.name mB.name
                    mA.category_name mB.category_name),
                  ("subcategory", compareFieldJson mA.name mB.name
                    mA.subcategory_name mB.subcategory_name),
                  ("habitat", compareFieldJson mA.name mB.name
                    mA.habitat mB.habitat),
                  ("rarity", compareFieldJson mA.name mB.name
                    mA.rarity mB.rarity),
                  ("stats", Json.obj
                    [("height", Json.obj [(mA.name, Json.str mA.height),
                        (mB.name, Json.str mB.height)]),
                      ("weight", Json.obj [(mA.name, Json.str mA.weight),
                        (mB.name, Json.str mB.weight)])])]),
              ("summary", Json.str
                ("Comparison between " ++ mA.name ++ " and " ++ mB.name ++
                  ". They are both " ++
                  (if mA.category_name == mB.category_name then
                    "in the same category" else "in different categories") ++
                  " (" ++ mA.category_name ++ " vs " ++ mB.category_name ++
                  ").")),
              ("source", Json.str "RAGmonsters DB"),
              ("next", Json.arr
                [Json.str ("getMonsterById(\x7b monsterId: " ++
                    toString mA.monster_id ++ " \x7d)"),
                  Json.str ("getMonsterById(\x7b monsterId: " ++
                    toString mB.monster_id ++ " \x7d)")])]), 0)

/-- Connection-pool accounting: how many clients are currently leased
out of the pool. -/
structure PoolState where
  leased : Int
deriving DecidableEq, Repr

/-- `pool.connect()` hands out a client. -/
def poolConnect (p : PoolState) : PoolState := ⟨p.leased + 1⟩

/-- `client.release()` returns it. -/
def clientRelease (p : PoolState) : PoolState := ⟨p.leased - 1⟩

/-- `executeQuery` of `utils/db.js` (lines 13-39): `client` starts
undefined; `pool.connect()` may itself reject (then the `finally` block
sees no client and releases nothing, and nothing was leased); once a
client is acquired, the query either resolves or rejects, and the
`finally` block releases the client on both paths before the result or
the rethrown error leaves the function. -/
def executeQueryPool (connectOk : Bool)
    (queryOutcome : Except JsError (List Int)) (p : PoolState) :
    Except JsError (List Int) × PoolState :=
  if connectOk then
    let acquired := poolConnect p
    match queryOutcome with
    | .ok rows => (.ok rows, clientRelease acquired)
    | .error e => (.error e, clientRelease acquired)
  else
    (.error (jsError "connection failed"), p)

/-- `executeTransaction` of `utils/db.js` (lines 47-60): connect, run
the callback between BEGIN and COMMIT (ROLLBACK and rethrow on error),
release in `finally` on both paths. -/
def executeTransactionPool (connectOk : Bool)
    (callbackOutcome : Except JsError (List Int)) (p : PoolState) :
    Except JsError (List Int) × PoolState :=
  if connectOk then
    let acquired := poolConnect p
    match callbackOutcome with
    | .ok r => (.ok r, clientRelease acquired)
    | .error e => (.error e, clientRelease acquired)
  else
    (.error (jsError "connection failed"), p)

/-- An environment whose data store answers every query. -/
def okEnv (db : Database) : Env := ⟨db, none⟩

/-- A small concrete store used to evaluate the embedded tools: two
monsters (the `Abyssalurk` of the repository's examples, with one
keyword, one ability, zero flaws, one augment and one hindrance, and a
`Pyroclasm`), their subcategories and categories. -/
def demoDb : Database where
  monsters :=
    [⟨1, "Abyssalurk", 1, "Aquatic", "Abyssal Trenches", "Deep Ocean",
      "Rare", "Found during a trench survey.", "2.40", "180 kg",
      "Eel-like ambusher.", "Pressure Immunity", "Bioluminescent Lure",
      "Abyssal Camouflage", "Bright light", "Solitary ambush predator.",
      "Specimen AB-1."⟩,
    ⟨2, "Pyroclasm", 2, "Elemental", "Volcanic Mountains", "Volcano",
      "Uncommon", "Seen during an eruption.", "3.10", "Immeasurable",
      "Living magma flow.", "Lava Control", "Heat Aura", "Eruption",
      "Water", "Territorial.", "Specimen PY-7."⟩]
  categories := [⟨1, "Aquatic"⟩, ⟨2, "Elemental"⟩]
  subcategories := [⟨1, "Deep Sea", 1⟩, ⟨2, "Fire", 2⟩]
  questworlds_stats := [⟨1, 1⟩]
  keywords := [⟨1, 1, "Deep Sea Predator", 17⟩]
  abilities := [⟨1, 1, 1, "Ambush Strike", "5"⟩]
  flaws := []
  augments := [⟨1, 1, "Fire Creatures", 5⟩]
  hindrances := [⟨1, 1, "Sonic Attacks", -5⟩]

/-- The order in which the abilities query delivers its rows
(`ORDER BY k.keyword_name, a.ability_name`): lexicographic on keyword
name then ability name, alphabetical character-wise. -/
def abilityRowLE (a b : AbilityRes) : Prop :=
  a.keyword_name.data < b.keyword_name.data ∨
    (a.keyword_name = b.keyword_name ∧
      a.ability_name.data ≤ b.ability_name.data)

instance : DecidableRel abilityRowLE := fun a b =>
  inferInstanceAs (Decidable (a.keyword_name.data < b.keyword_name.data ∨
    (a.keyword_name = b.keyword_name ∧
      a.ability_name.data ≤ b.ability_name.data)))

/-- Strict alphabetical order on keyword nodes by node name. -/
def nodeLT (a b : KeywordNode) : Prop := a.name.data < b.name.data

instance : IsTrans KeywordNode nodeLT :=
  ⟨fun _ _ _ hab hbc => lt_trans hab hbc⟩

/-- Alphabetical order on assembled abilities by ability name. -/
def abilityNameLE (x y : Ability) : Prop := x.name.data ≤ y.name.data

/-- A concrete ability result set, in query order: two abilities sharing
one keyword followed by a second keyword. -/
def demoAbilityRows : List AbilityRes :=
  [⟨"Agile", 17, "Dodge", "5"⟩, ⟨"Agile", 17, "Leap", ""⟩,
    ⟨"Strong", 13, "Lift", "1"⟩]

theorem length_insertSorted {α : Type} (le : α → α → Bool) (a : α) :
    ∀ l : List α, (insertSorted le a l).length = l.length + 1 := by
  intro l
  induction l with
  | nil => rfl
  | cons b bs ih =>
    by_cases h : le a b = true
    · simp [insertSorted, h]
    · simp [insertSorted, h, ih]

theorem length_sortBy {α : Type} (le : α → α → Bool) :
    ∀ l : List α, (sortBy le l).length = l.length := by
  intro l
  induction l with
  | nil => rfl
  | cons a as ih => simp [sortBy, length_insertSorted, ih]

theorem mem_insertSorted {α : Type} (le : α → α → Bool) (a x : α) :
    ∀ l : List α, x ∈ insertSorted le a l ↔ x = a ∨ x ∈ l := by
  intro l
  induction l with
  | nil => simp [insertSorted]
  | cons b bs ih =>
    by_cases h : le a b = true
    · simp [insertSorted, h]
    · simp [insertSorted, h, ih]
      tauto

theorem mem_sortBy {α : Type} (le : α → α → Bool) (x : α) :
    ∀ l : List α, x ∈ sortBy le l ↔ x ∈ l := by
  intro l
  induction l with
  | nil => simp [sortBy]
  | cons a as ih => simp [sortBy, mem_insertSorted, ih]

theorem chain'_append_singleton {α : Type} {R : α → α → Prop} :
    ∀ {l : List α} {x : α}, List.Chain' R l → (∀ a ∈ l, R a x) →
      List.Chain' R (l ++ [x]) := by
  intro l
  induction l with
  | nil => intro x _ _; exact List.chain'_singleton x
  | cons a as ih =>
    intro x hc hr
    cases as with
    | nil => exact List.chain'_cons.mpr ⟨hr a (by simp), List.chain'_singleton x⟩
    | cons b bs =>
      rw [List.cons_append]
      refine List.chain'_cons.mpr ⟨(List.chain'_cons.mp hc).1, ?_⟩
      exact ih (List.chain'_cons.mp hc).2 (fun c hc' => hr c (List.mem_cons_of_mem a hc'))

/-- Claim C1 counterexample: not every list-returning operation appends
`monster_id` as secondary sort key — the ordering clauses generated for
`getMonsterByHabitat` and `getMonsterByName` sort by `m.name` alone and
mention no `monster_id` column at all. -/
theorem habitat_order_lacks_tiebreak :
    ((getMonsterByHabitatOrderBy.map OrderKey.column).contains "monster_id"
      = false) ∧
    ((getMonsterByNameOrderBy.map OrderKey.column).contains "monster_id"
      = false) := by
  decide

/-- Claim C1 (amended): the ordering clause generated by `getMonsters`
always appends the creature identity `monster_id ASC` as stable
secondary key after the requested sort field, but `getMonsterByHabitat`
and `getMonsterByName` order by `name` alone with no identity
tie-break. -/
theorem order_tiebreak_amended :
    (∀ sort : SortParams,
      (getMonstersOrderBy sort).getLast? = some ⟨"monster_id", SortDir.asc⟩ ∧
      (getMonstersOrderBy sort).length = 2) ∧
    getMonsterByHabitatOrderBy = [⟨"name", SortDir.asc⟩] ∧
    getMonsterByNameOrderBy = [⟨"name", SortDir.asc⟩] := by
  refine ⟨fun sort => ?_, rfl, rfl⟩
  unfold getMonstersOrderBy
  by_cases h : jsTruthyStr sort.field = true <;> simp [h]

/-- Claim C2 counterexample: `getMonsterByHabitat` binds the caller's
limit without clamping it into `[1, 50]`: requesting limit `0` (clamp
would give `1`) returns a page of length `0` although the filtered set
is non-empty. -/
theorem habitat_limit_unclamped_cex :
    safeLimit 0 = 1 ∧
    (getMonsterByHabitatRows demoDb "Abyssal Trenches" 0).length = 0 ∧
    ((joinMSC demoDb).filter
      (fun r => r.habitat == "Abyssal Trenches")).length = 1 := by
  refine ⟨rfl, rfl, rfl⟩

/-- Claim C2 (amended): `getMonsters` clamps the bound limit into
`[1, 50]` via `safeLimit` and its page length is `min(clamped limit,
filtered row count)` (with offset 0), so it is 0 only when the filtered
set is empty; `getMonsterByHabitat` binds the caller's limit unclamped,
its page length being `min(requested, filtered row count)`. -/
theorem limit_clamp_amended :
    (∀ limit : Int, 1 ≤ safeLimit limit ∧ safeLimit limit ≤ 50) ∧
    (∀ (db : Database) (f : Option Filters) (s : Option SortParams)
      (limit : Int),
      (getMonstersRows db ⟨f, s, some limit, some 0⟩).length =
        min (safeLimit limit).toNat
          (applyFilters (f.getD {}) (joinMSC db)).length) ∧
    (∀ (db : Database) (h : String) (lim : Int),
      (getMonsterByHabitatRows db h lim).length =
        min lim.toNat
          ((joinMSC db).filter (fun r => r.habitat == h)).length) := by
  refine ⟨fun limit => ⟨le_min (le_max_left 1 limit) (by norm_num),
      min_le_right _ _⟩, fun db f s limit => ?_, fun db h lim => ?_⟩
  · simp [getMonstersRows, List.length_take, length_sortBy]
  · simp [getMonsterByHabitatRows, List.length_take, length_sortBy]

/-- Claim C9: `executeQuery` and `executeTransaction` return the pooled
connection on every exit path — query success, query error, and a
failing `pool.connect()` (where no client was ever leased) — so the
number of leased connections after the call always equals the number
before it. -/
theorem pool_release_balanced :
    ∀ (connectOk : Bool) (outcome cbOutcome : Except JsError (List Int))
      (p : PoolState),
      (executeQueryPool connectOk outcome p).2 = p ∧
      (executeTransactionPool connectOk cbOutcome p).2 = p := by
  intro c o cb p
  obtain ⟨n⟩ := p
  constructor
  · cases c <;> cases o <;>
      simp [executeQueryPool, poolConnect, clientRelease]
  · cases c <;> cases cb <;>
      simp [executeTransactionPool, poolConnect, clientRelease]

/-- Claim C10: a falsy `monsterId` (missing, or the integer 0) makes
`getMonsterById` fail with the required-parameter error before any query
executes (query count 0) regardless of the store — so a creature with
identity 0 can never be retrieved; the analogous guard fires for a
missing or empty `habitat` in `getMonsterByHabitat` and a missing or
empty `name` in `getMonsterByName`. -/
theorem required_param_guards :
    ∀ (env : Env) (lim : Option Int),
      getMonsterById env none = (.error (jsError
        "Failed to retrieve monster details: Monster ID is required"), 0) ∧
      getMonsterById env (some 0) = (.error (jsError
        "Failed to retrieve monster details: Monster ID is required"), 0) ∧
      getMonsterByHabitat env none lim = (.error (jsError
        "Failed to retrieve monsters by habitat: Habitat parameter is required"),
        0) ∧
      getMonsterByHabitat env (some "") lim = (.error (jsError
        "Failed to retrieve monsters by habitat: Habitat parameter is required"),
        0) ∧
      getMonsterByName env none = (.error (jsError
        "Failed to retrieve monster by name: Monster name is required"), 0) ∧
      getMonsterByName env (some "") = (.error (jsError
        "Failed to retrieve monster by name: Monster name is required"), 0) := by
  intro env lim
  exact ⟨rfl, rfl, rfl, rfl, rfl, rfl⟩

/-- Claim C4 counterexample: the reference-list tool `getCategories`
issues one fresh query against the data store on an invocation — not
zero, as serving from a startup cache would. -/
theorem reference_tool_queries_cex :
    (toolGetCategories (okEnv demoDb)).2 = 1 ∧
    (toolGetCategories (okEnv demoDb)).2 ≠ 0 := by
  exact ⟨rfl, by decide⟩

/-- Claim C4 (amended): the resource loaders of `resources/monsters.js`
serve the lists loaded once at startup by `initializeResources` (which
runs exactly three queries) and run no query per invocation, but the
tool operations `getCategories`, `getRarities`, `getBiomes`,
`getHabitats` and `getSubcategories` of `tools/monsters.js` each issue
one fresh query against the data store on every invocation. -/
theorem reference_lists_amended :
    (∀ (env : Env) (catName : Option String),
      (toolGetCategories env).2 = 1 ∧
      (toolGetRarities env).2 = 1 ∧
      (toolGetBiomes env).2 = 1 ∧
      (toolGetHabitats env).2 = 1 ∧
      (toolGetSubcategories env catName).2 = 1) ∧
    (∀ db : Database, (initializeResources (okEnv db)).2 = 3) ∧
    (∀ cache : ResourceCache,
      (loadCategories cache).2 = 0 ∧ (loadHabitats cache).2 = 0) := by
  refine ⟨fun env catName => ?_, fun db => rfl, fun cache => ⟨rfl, rfl⟩⟩
  obtain ⟨db, qf⟩ := env
  cases qf <;>
    simp [toolGetCategories, toolGetRarities, toolGetBiomes, toolGetHabitats,
      toolGetSubcategories, bindQ, runQuery, jsCatchWrap]

/-- Claim C6 counterexample: when no monster matches,
`getMonsterByName` does not return the `{found, count, monsters}`
shape — it returns `{found: false, message}`, with no `count` and no
`monsters` field. -/
theorem byName_nomatch_shape_cex :
    (getMonsterByName (okEnv demoDb) (some "zzzz")).1 =
      Except.ok (Json.obj
        [("found", Json.jbool false),
          ("message", Json.str "No monsters found with name: zzzz")]) ∧
    ((getMonsterByName (okEnv demoDb) (some "zzzz")).1.toOption.bind
      (fun j => j.objLookup "count")) = none ∧
    ((getMonsterByName (okEnv demoDb) (some "zzzz")).1.toOption.bind
      (fun j => j.objLookup "monsters")) = none := by
  exact ⟨rfl, rfl, rfl⟩

/-- Claim C6 (amended): `getMonsterByName` matches case-insensitively on
a partial name and returns at most 5 rows, all of which match; on a hit
the response is `{found: true, count, monsters}` — for `"abyss"` it
matches `"Abyssalurk"` with `found: true, count: 1` — and on a miss the
response is `{found: false, message}` without `count` or `monsters`
fields. -/
theorem byName_shape_amended :
    (∀ (db : Database) (name : String),
      (getMonsterByNameRows db name).length ≤ 5 ∧
      (getMonsterByNameRows db name).all
        (fun r => likeContainsCI name r.name) = true) ∧
    (getMonsterByName (okEnv demoDb) (some "abyss")).1 =
      Except.ok (Json.obj
        [("found", Json.jbool true),
          ("count", Json.num 1),
          ("monsters", Json.arr [summaryJson false
            ⟨1, "Abyssalurk", "Aquatic", "Deep Sea", "Abyssal Trenches",
              "Deep Ocean", "Rare", "Pressure Immunity",
              "Bioluminescent Lure", "Abyssal Camouflage"⟩])]) ∧
    (getMonsterByName (okEnv demoDb) (some "zzzz")).1.toOption.bind
      (fun j => j.objLookup "found") = some (Json.jbool false) ∧
    (getMonsterByName (okEnv demoDb) (some "zzzz")).1.toOption.bind
      (fun j => j.objLookup "message") =
        some (Json.str "No monsters found with name: zzzz") := by
  refine ⟨fun db name => ⟨List.length_take_le _ _, ?_⟩, rfl, rfl, rfl⟩
  rw [List.all_eq_true]
  intro r hr
  have hmem : r ∈ (joinMSC db).filter (fun r => likeContainsCI name r.name) :=
    (mem_sortBy _ _ _).mp (List.mem_of_mem_take hr)
  simpa using (List.mem_filter.mp hmem).2

/-- Claim C5 counterexample: errors at the Action boundary carry no
stable kind tag distinguishing their class — the not-found error for an
unknown identity and a wrapped transport/connection error are both plain
`Error` values whose kind tag (the JS class name) is identical; only the
message text differs. -/
theorem error_kind_tag_cex :
    (getMonsterById (okEnv demoDb) (some 999)).1 =
      Except.error (jsError
        "Failed to retrieve monster details: Monster with ID 999 not found") ∧
    (getMonsterById ⟨demoDb, some (jsError "Connection terminated unexpectedly")⟩
      (some 999)).1 =
      Except.error (jsError
        "Failed to retrieve monster details: Connection terminated unexpectedly") ∧
    (jsError
      "Failed to retrieve monster details: Monster with ID 999 not found").name =
      (jsError
        "Failed to retrieve monster details: Connection terminated unexpectedly").name := by
  exact ⟨rfl, rfl, rfl⟩

/-- Claim C5 (amended): errors surface at the Action boundary as plain
`Error` values distinguished only by their human-readable message, not
by a kind tag: for an unknown identity `getMonsterById` fails with the
message `Failed to retrieve monster details: Monster with ID <id> not
found`, textually distinct from a wrapped transport error
`Failed to retrieve monster details: <store message>`, and a
`compareMonsters` call whose second name does not resolve fails with a
message naming that monster. -/
theorem error_messages_amended :
    (∀ (db : Database) (mid : Int), mid ≠ 0 → joinById db mid = [] →
      (getMonsterById (okEnv db) (some mid)).1 = Except.error (jsError
        ("Failed to retrieve monster details: " ++
          ("Monster with ID " ++ toString mid ++ " not found")))) ∧
    (∀ (db : Database) (e : JsError) (mid : Int), mid ≠ 0 →
      (getMonsterById ⟨db, some e⟩ (some mid)).1 = Except.error (jsError
        ("Failed to retrieve monster details: " ++ e.message))) ∧
    (∀ (db : Database) (a b : String), a ≠ "" → b ≠ "" →
      (∃ mA, (compareRowsFor db a b).find?
        (fun m => jsToLower m.name == jsToLower a) = some mA) →
      (compareRowsFor db a b).find?
        (fun m => jsToLower m.name == jsToLower b) = none →
      (compareMonsters (okEnv db) (some a) (some b)).1 = Except.error (jsError
        ("Monster \x27" ++ b ++ "\x27 not found."))) := by
  refine ⟨fun db mid hmid hempty => ?_, fun db e mid hmid => ?_,
    fun db a b ha hb hA hB => ?_⟩
  · have h1 : (mid == 0) = false := by simpa using hmid
    simp [getMonsterById, jsTruthyInt, h1, okEnv, runQuery, bindQ, hempty,
      jsCatchWrap, jsError]
  · have h1 : (mid == 0) = false := by simpa using hmid
    simp [getMonsterById, jsTruthyInt, h1, runQuery, bindQ, jsCatchWrap]
  · obtain ⟨mA, hA⟩ := hA
    have h1 : (a == "") = false := by simpa using ha
    have h2 : (b == "") = false := by simpa using hb
    simp [compareMonsters, jsTruthyStr, h1, h2, okEnv, runQuery, bindQ, hA, hB]

/-- Claim C5 amended witness: the three error shapes at concrete
inputs on the demo store. -/
theorem error_messages_amended_witness :
    (getMonsterById (okEnv demoDb) (some 999)).1 = Except.error (jsError
      ("Failed to retrieve monster details: Monster with ID " ++
        toString (999 : Int) ++ " not found")) ∧
    (getMonsterById ⟨demoDb, some (jsError "Connection terminated unexpectedly")⟩
      (some 999)).1 = Except.error (jsError
      ("Failed to retrieve monster details: " ++
        (jsError "Connection terminated unexpectedly").message)) ∧
    (compareMonsters (okEnv demoDb) (some "Abyssalurk") (some "Zorp")).1 =
      Except.error (jsError ("Monster \x27" ++ "Zorp" ++ "\x27 not found.")) :=
  ⟨error_messages_amended.1 demoDb 999 (by decide) rfl,
    error_messages_amended.2.1 demoDb
      (jsError "Connection terminated unexpectedly") 999 (by decide),
    error_messages_amended.2.2 demoDb "Abyssalurk" "Zorp" (by decide)
      (by decide) ⟨_, rfl⟩ rfl⟩

/-- Claim C3: a `getMonsters` request whose `filters.category` or
`filters.rarity` lies outside the corresponding closed enumeration of
the registered zod schema fails with a validation error and executes
zero queries — it never succeeds with an empty result list. -/
theorem enum_validation_rejects :
    ∀ (env : Env) (p : GetMonstersParams) (f : Filters),
      p.filters = some f →
      ((∃ c, f.category = some c ∧ c ∉ categoryEnum) ∨
        (∃ r, f.rarity = some r ∧ r ∉ rarityEnum)) →
      callGetMonstersTool env p = (.error zodValidationError, 0) := by
  intro env p f hf hbad
  have hval : validateGetMonstersParams p = false := by
    unfold validateGetMonstersParams
    rw [hf]
    rcases hbad with ⟨c, hc, hmem⟩ | ⟨r, hr, hmem⟩
    · simp [hc, hmem]
    · simp [hr, hmem]
  simp [callGetMonstersTool, hval]

/-- Claim C3 witness: the out-of-enum category `"Dragon"` is rejected
with zero query execution. -/
theorem enum_validation_rejects_witness :
    callGetMonstersTool (okEnv demoDb)
      ⟨some ⟨some "Dragon", none, none, none⟩, none, none, none⟩ =
      (.error zodValidationError, 0) :=
  enum_validation_rejects (okEnv demoDb) _ _ rfl
    (Or.inl ⟨"Dragon", rfl, by decide⟩)

/-- Claim C7: the nested detail record assembled by `getMonsterById`
always contains `keywords`, `flaws`, `strengths` and `weaknesses` as
JSON lists, whatever the related row sets are; when a related row set is
empty the corresponding field is the empty list — present, never null —
and on the demo store the flawless Abyssalurk indeed yields
`flaws: []`. -/
theorem detail_fields_present :
    ∀ (m : DetailRow) (ab : List AbilityRes) (fl : List FlawRes)
      (st wk : List TargetRes),
      (∃ l, (monsterDetailJson m ab fl st wk).objLookup "keywords" =
        some (Json.arr l)) ∧
      (∃ l, (monsterDetailJson m ab fl st wk).objLookup "flaws" =
        some (Json.arr l)) ∧
      (∃ l, (monsterDetailJson m ab fl st wk).objLookup "strengths" =
        some (Json.arr l)) ∧
      (∃ l, (monsterDetailJson m ab fl st wk).objLookup "weaknesses" =
        some (Json.arr l)) ∧
      (monsterDetailJson m [] fl st wk).objLookup "keywords" =
        some (Json.arr []) ∧
      (monsterDetailJson m ab [] st wk).objLookup "flaws" =
        some (Json.arr []) ∧
      (monsterDetailJson m ab fl [] wk).objLookup "strengths" =
        some (Json.arr []) ∧
      (monsterDetailJson m ab fl st []).objLookup "weaknesses" =
        some (Json.arr []) ∧
      (((getMonsterById (okEnv demoDb) (some 1)).1.toOption.bind
        (fun j => j.objLookup "data")).bind
          (fun d => d.objLookup "flaws")) = some (Json.arr []) := by
  intro m ab fl st wk
  exact ⟨⟨_, rfl⟩, ⟨_, rfl⟩, ⟨_, rfl⟩, ⟨_, rfl⟩, rfl, rfl, rfl, rfl, rfl⟩

theorem foldl_insertRow_invariant :
    ∀ (rows : List AbilityRes) (acc : List KeywordNode),
      rows.Pairwise abilityRowLE →
      List.Chain' nodeLT acc →
      (∀ n ∈ acc, List.Chain' abilityNameLE n.abilities) →
      (∀ n ∈ acc, ∀ r ∈ rows, n.name.data ≤ r.keyword_name.data) →
      (∀ n ∈ acc, ∀ r ∈ rows, n.name = r.keyword_name →
        ∀ a ∈ n.abilities, a.name.data ≤ r.ability_name.data) →
      List.Chain' nodeLT (rows.foldl insertRow acc) ∧
      (∀ n ∈ rows.foldl insertRow acc,
        List.Chain' abilityNameLE n.abilities) ∧
      (∃ t, (rows.foldl insertRow acc).map KeywordNode.name =
        acc.map KeywordNode.name ++ t) ∧
      (∀ n ∈ rows.foldl insertRow acc,
        n.name ∈ acc.map KeywordNode.name ∨
          n.name ∈ rows.map AbilityRes.keyword_name) ∧
      (∀ r ∈ rows, r.keyword_name ∈
        (rows.foldl insertRow acc).map KeywordNode.name) := by
  intro rows
  induction rows with
  | nil =>
    intro acc _ hchain habs _ _
    refine ⟨hchain, habs, ⟨[], (List.append_nil _).symm⟩, ?_, ?_⟩
    · intro n hn
      exact Or.inl (List.mem_map_of_mem _ hn)
    · intro r hr
      simp at hr
  | cons r rs ih =>
    intro acc hrows hchain habs hsep habr
    rw [List.foldl_cons]
    obtain ⟨hr, hrs⟩ := List.pairwise_cons.mp hrows
    by_cases hfound : acc.any (fun n => n.name == r.keyword_name) = true
    · have hins : insertRow acc r = acc.map fun n =>
          if n.name == r.keyword_name then
            { n with abilities :=
                n.abilities ++ [⟨r.ability_name, r.mastery_value⟩] }
          else n := by
        unfold insertRow
        rw [if_pos hfound]
      have hname : ∀ n : KeywordNode,
          ((if n.name == r.keyword_name then
            { n with abilities :=
                n.abilities ++ [⟨r.ability_name, r.mastery_value⟩] }
          else n) : KeywordNode).name = n.name := by
        intro n
        by_cases hb : (n.name == r.keyword_name) = true
        · rw [if_pos hb]
        · rw [if_neg hb]
      have hnames_eq : (insertRow acc r).map KeywordNode.name =
          acc.map KeywordNode.name := by
        rw [hins, List.map_map]
        exact List.map_congr_left fun n _ => hname n
      have hchain2 : List.Chain' nodeLT (insertRow acc r) := by
        rw [hins]
        refine (List.chain'_map _).mpr (hchain.imp ?_)
        intro a b hab
        show nodeLT _ _
        unfold nodeLT
        rw [hname a, hname b]
        exact hab
      have habs2 : ∀ n ∈ insertRow acc r,
          List.Chain' abilityNameLE n.abilities := by
        rw [hins]
        intro n' hn'
        obtain ⟨n, hn, rfl⟩ := List.mem_map.mp hn'
        by_cases hb : (n.name == r.keyword_name) = true
        · rw [if_pos hb]
          refine chain'_append_singleton (habs n hn) ?_
          intro a ha
          exact habr n hn r (List.mem_cons_self r rs) (eq_of_beq hb) a ha
        · rw [if_neg hb]
          exact habs n hn
      have hsep2 : ∀ n ∈ insertRow acc r, ∀ s ∈ rs,
          n.name.data ≤ s.keyword_name.data := by
        rw [hins]
        intro n' hn' s hs
        obtain ⟨n, hn, rfl⟩ := List.mem_map.mp hn'
        rw [hname n]
        exact hsep n hn s (List.mem_cons_of_mem r hs)
      have habr2 : ∀ n ∈ insertRow acc r, ∀ s ∈ rs,
          n.name = s.keyword_name →
          ∀ a ∈ n.abilities, a.name.data ≤ s.ability_name.data := by
        rw [hins]
        intro n' hn' s hs heq a ha
        obtain ⟨n, hn, rfl⟩ := List.mem_map.mp hn'
        rw [hname n] at heq
        by_cases hb : (n.name == r.keyword_name) = true
        · rw [if_pos hb] at ha
          rcases List.mem_append.mp ha with ha' | ha'
          · exact habr n hn s (List.mem_cons_of_mem r hs) heq a ha'
          · have ha'' : a = ⟨r.ability_name, r.mastery_value⟩ := by
              simpa using ha'
            subst ha''
            have hkw : r.keyword_name = s.keyword_name := by
              rw [← eq_of_beq hb]
              exact heq
            rcases hr s hs with hlt | ⟨_, hle⟩
            · rw [hkw] at hlt
              exact absurd hlt (lt_irrefl _)
            · exact hle
        · rw [if_neg hb] at ha
          exact habr n hn s (List.mem_cons_of_mem r hs) heq a ha
      obtain ⟨C1, C2, ⟨t, ht⟩, C4, C5⟩ :=
        ih (insertRow acc r) hrs hchain2 habs2 hsep2 habr2
      refine ⟨C1, C2, ⟨t, by rw [ht, hnames_eq]⟩, ?_, ?_⟩
      · intro n hn
        rcases C4 n hn with h | h
        · rw [hnames_eq] at h
          exact Or.inl h
        · exact Or.inr (List.mem_cons_of_mem _ h)
      · intro s hs
        rcases List.mem_cons.mp hs with rfl | hs'
        · obtain ⟨n, hn, hbeq⟩ := List.any_eq_true.mp hfound
          rw [ht, hnames_eq, ← eq_of_beq hbeq]
          exact List.mem_append_left _ (List.mem_map_of_mem _ hn)
        · exact C5 s hs'
    · have hins : insertRow acc r = acc ++
          [⟨r.keyword_name, r.rating, [⟨r.ability_name, r.mastery_value⟩]⟩] := by
        unfold insertRow
        rw [if_neg hfound]
      have hnotin : ∀ n ∈ acc, n.name ≠ r.keyword_name := by
        intro n hn heq
        exact hfound (List.any_eq_true.mpr ⟨n, hn, by rw [heq]; exact beq_self_eq_true _⟩)
      have hchain2 : List.Chain' nodeLT (insertRow acc r) := by
        rw [hins]
        refine chain'_append_singleton hchain ?_
        intro n hn
        exact lt_of_le_of_ne (hsep n hn r (List.mem_cons_self r rs))
          (fun hdata => hnotin n hn (congrArg String.mk hdata))
      have habs2 : ∀ n ∈ insertRow acc r,
          List.Chain' abilityNameLE n.abilities := by
        rw [hins]
        intro n hn
        rcases List.mem_append.mp hn with hn' | hn'
        · exact habs n hn'
        · have hn'' : n = ⟨r.keyword_name, r.rating,
              [⟨r.ability_name, r.mastery_value⟩]⟩ := by
            simpa using hn'
          subst hn''
          exact List.chain'_singleton _
      have hsep2 : ∀ n ∈ insertRow acc r, ∀ s ∈ rs,
          n.name.data ≤ s.keyword_name.data := by
        rw [hins]
        intro n hn s hs
        rcases List.mem_append.mp hn with hn' | hn'
        · exact hsep n hn' s (List.mem_cons_of_mem r hs)
        · have hn'' : n = ⟨r.keyword_name, r.rating,
              [⟨r.ability_name, r.mastery_value⟩]⟩ := by
            simpa using hn'
          subst hn''
          rcases hr s hs with hlt | ⟨heq, _⟩
          · exact le_of_lt hlt
          · exact le_of_eq (congrArg String.data heq)
      have habr2 : ∀ n ∈ insertRow acc r, ∀ s ∈ rs,
          n.name = s.keyword_name →
          ∀ a ∈ n.abilities, a.name.data ≤ s.ability_name.data := by
        rw [hins]
        intro n hn s hs heq a ha
        rcases List.mem_append.mp hn with hn' | hn'
        · exact habr n hn' s (List.mem_cons_of_mem r hs) heq a ha
        · have hn'' : n = ⟨r.keyword_name, r.rating,
              [⟨r.ability_name, r.mastery_value⟩]⟩ := by
            simpa using hn'
          subst hn''
          have ha' : a = ⟨r.ability_name, r.mastery_value⟩ := by
            simpa using ha
          subst ha'
          have heq' : r.keyword_name = s.keyword_name := heq
          rcases hr s hs with hlt | ⟨_, hle⟩
          · rw [heq'] at hlt
            exact absurd hlt (lt_irrefl _)
          · exact hle
      obtain ⟨C1, C2, ⟨t, ht⟩, C4, C5⟩ :=
        ih (insertRow acc r) hrs hchain2 habs2 hsep2 habr2
      have hmap : (insertRow acc r).map KeywordNode.name =
          acc.map KeywordNode.name ++ [r.keyword_name] := by
        rw [hins, List.map_append]
        rfl
      refine ⟨C1, C2, ⟨r.keyword_name :: t, by
        rw [ht, hmap, List.append_assoc]
        rfl⟩, ?_, ?_⟩
      · intro n hn
        rcases C4 n hn with h | h
        · rw [hmap] at h
          rcases List.mem_append.mp h with h' | h'
          · exact Or.inl h'
          · have hn'' : n.name = r.keyword_name := by simpa using h'
            rw [hn'']
            exact Or.inr (List.mem_cons_self _ _)
        · exact Or.inr (List.mem_cons_of_mem _ h)
      · intro s hs
        rcases List.mem_cons.mp hs with rfl | hs'
        · rw [ht, hmap]
          exact List.mem_append_left _
            (List.mem_append_right _ (List.mem_singleton_self _))
        · exact C5 s hs'

/-- Claim C8: the keyword/ability assembler of `getMonsterById` groups
ability rows into one node per keyword name, and — given rows in the
query's delivery order (keyword name then ability name) — the resulting
keyword nodes appear in strictly ascending alphabetical order with no
duplicate keyword, each node's ability list is alphabetically ordered,
every row's keyword is represented, and no node names a keyword absent
from the rows; being a pure function of the row set, its output is
identical across runs on the same rows. -/
theorem assembler_grouping_sorted :
    ∀ rows : List AbilityRes, rows.Pairwise abilityRowLE →
      List.Chain' nodeLT (groupAbilities rows) ∧
      ((groupAbilities rows).map KeywordNode.name).Nodup ∧
      (∀ n ∈ groupAbilities rows, List.Chain' abilityNameLE n.abilities) ∧
      (∀ r ∈ rows, r.keyword_name ∈
        (groupAbilities rows).map KeywordNode.name) ∧
      (∀ n ∈ groupAbilities rows,
        n.name ∈ rows.map AbilityRes.keyword_name) := by
  intro rows hrows
  unfold groupAbilities
  obtain ⟨C1, C2, _, C4, C5⟩ := foldl_insertRow_invariant rows [] hrows
    List.chain'_nil (by simp) (by simp) (by simp)
  refine ⟨C1, ?_, C2, C5, ?_⟩
  · have hpair := List.chain'_iff_pairwise.mp C1
    have hne : (rows.foldl insertRow []).Pairwise
        (fun a b : KeywordNode => a.name ≠ b.name) := by
      refine hpair.imp ?_
      intro a b h heq
      have h' : a.name.data < b.name.data := h
      rw [heq] at h'
      exact absurd h' (lt_irrefl _)
    exact List.pairwise_map.mpr hne
  · intro n hn
    rcases C4 n hn with h | h
    · simp at h
    · exact h

/-- Claim C8 witness: the assembler on a concrete sorted row set. -/
theorem assembler_grouping_sorted_witness :
    demoAbilityRows.Pairwise abilityRowLE ∧
    (List.Chain' nodeLT (groupAbilities demoAbilityRows) ∧
      ((groupAbilities demoAbilityRows).map KeywordNode.name).Nodup ∧
      (∀ n ∈ groupAbilities demoAbilityRows,
        List.Chain' abilityNameLE n.abilities) ∧
      (∀ r ∈ demoAbilityRows, r.keyword_name ∈
        (groupAbilities demoAbilityRows).map KeywordNode.name) ∧
      (∀ n ∈ groupAbilities demoAbilityRows,
        n.name ∈ demoAbilityRows.map AbilityRes.keyword_name)) :=
  ⟨by decide, assembler_grouping_sorted demoAbilityRows (by decide)⟩

end RAGmonsters
